import Mathlib

/-!
Verification development for the backend API service of ergatta/open-match
(`src/cmd/backendapi/apisrv/apisrv.go`).

The Go handlers are shallowly embedded as pure Lean functions.  Every
interaction with an external collaborator (the Redis state store, the unique
id generator `xid`, the configuration object, `gjson` validation, the backoff
watcher) is represented by an explicit environment record whose fields give
the outcome of each external call, and every store operation the handler
attempts is recorded, in program order, in an effect trace returned alongside
the handler's result.  This makes the handlers' control flow, returned values
and attempted side effects directly provable while keeping the external
collaborators abstract, exactly as the source treats them.
-/

set_option autoImplicit false

namespace OpenMatch

/-- Modelled from the spec: a match-pool specification (`backend.PlayerPool`,
from the protobuf package `internal/pb`, which is not part of the source
tree).  The spec treats pools as opaque structured match-pool specifications;
only their presence or absence matters to the backend handlers, so the model
keeps a single opaque name. -/
structure PlayerPool where
  Name : String
deriving DecidableEq, Repr

/-- Modelled from the spec: a player (`backend.Player` from `internal/pb`,
not in the source tree): "`Id` (unique within a roster) and `Assignment`
(opaque string, empty = unset)". -/
structure Player where
  Id : String
  Assignment : String
deriving DecidableEq, Repr

/-- Modelled from the spec: a roster (`backend.Roster` from `internal/pb`,
not in the source tree): a "named group containing an ordered sequence of
Player". -/
structure Roster where
  Name : String
  Players : List Player
deriving DecidableEq, Repr

/-- Modelled from the spec: a match object / match profile
(`backend.MatchObject` from `internal/pb`, not in the source tree):
identity `Id`, opaque `Properties` document, `Pools`, `Rosters`, and an
`Error` string where the empty string encodes absence of error.  `Pools` and
`Rosters` are `Option` lists because the Go code distinguishes a nil slice
(the compatibility-shim trigger at lines 141 and 160) from a non-nil one. -/
structure MatchObject where
  Id : String
  Properties : String
  Pools : Option (List PlayerPool)
  Rosters : Option (List Roster)
  Error : String
deriving DecidableEq, Repr

/-- Modelled from the spec: `backend.Assignments` (from `internal/pb`, not in
the source tree): "a default `Assignment` value plus a list of Rosters". -/
structure Assignments where
  Rosters : List Roster
  Assignment : String
deriving DecidableEq, Repr

/-- Modelled from the spec: `backend.Result` (from `internal/pb`, not in the
source tree): `{success, error}`. -/
structure Result where
  Success : Bool
  Error : String
deriving DecidableEq, Repr

/-- The zero value `backend.MatchObject{}` returned on the fatal failure
paths of `CreateMatch` (apisrv.go lines 196 and 210). -/
def emptyMatchObject : MatchObject :=
  { Id := "", Properties := "", Pools := none, Rosters := none, Error := "" }

/-- Outcome of the single receive from the watcher channel
(apisrv.go line 223): either the channel delivered a match object, or it was
closed without a value by `redispb.Watcher`. -/
inductive WatchOutcome where
  | delivered (mo : MatchObject)
  | closed
deriving DecidableEq, Repr

/-- A store operation attempted by `CreateMatch`, in program order.
`write` is `redispb.MarshalToRedis` (line 187); modelled from the spec for
the key argument, since `MarshalToRedis` is not in the source tree and the
spec states the profile is persisted under the request key.  `enqueue` is
`redisHelpers.Update` on the profile queue (line 201).  `watch` is
`redispb.Watcher` keyed by the id of the passed match object (line 222). -/
inductive Effect where
  | write (key : String) (mo : MatchObject) (ttl : Int)
  | enqueue (queue : String) (item : String)
  | watch (key : String)
deriving DecidableEq, Repr

/-- Environment of a single `CreateMatch` call: the outcomes of every
external interaction the handler performs, in the source's order.

* `moID` — the fresh unique id `xid.New().String()` (line 124);
* `ttl` — `cfg.GetInt "redis.expirations.matchobject"` (line 187);
* `queueName` — `cfg.GetString "queues.profiles.name"` (line 201);
* `poolsShim` — outcome of the backwards-compatibility pools extraction
  (lines 141–155): `some ps` iff the config key is set, the properties
  document contains the pools JSON, and `jsonpb` parsing succeeded, in which
  case `ps` is the parsed pools; `none` covers every other case (config
  unset, key absent, or parse failure, which only logs);
* `rostersShim` — same for the rosters extraction (lines 160–173);
* `marshalErr` — error returned by `redispb.MarshalToRedis` (line 187);
* `updateErr` — error returned by `redisHelpers.Update` (line 201);
* `watchOutcome` — what the receive from the watcher channel produced
  (line 223);
* `ctxErr` — `watcherBOCtx.Context().Err()` observed after a closed channel
  (line 228): `some e` iff the cancellation context has fired, with `e` its
  error text;
* `jsonValid` — the `gjson.Valid` predicate (line 238), abstract since
  `gjson` is an external library. -/
structure MatchEnv where
  moID : String
  ttl : Int
  queueName : String
  poolsShim : Option (List PlayerPool)
  rostersShim : Option (List Roster)
  marshalErr : Option String
  updateErr : Option String
  watchOutcome : WatchOutcome
  ctxErr : Option String
  jsonValid : String → Bool

/-- The backwards-compatibility shim of `CreateMatch` (apisrv.go
lines 141–173): if the profile carries no protobuf pools and the properties
document yields parsed pools, install them; then the same, independently,
for rosters.  The shim touches only the `Pools` and `Rosters` fields. -/
def applyShim (env : MatchEnv) (profile : MatchObject) : MatchObject :=
  let p1 :=
    if profile.Pools = none then
      match env.poolsShim with
      | some ps => { profile with Pools := some ps }
      | none => profile
    else profile
  if p1.Rosters = none then
    match env.rostersShim with
    | some rs => { p1 with Rosters := some rs }
    | none => p1
  else p1

/-- `CreateMatch` (apisrv.go lines 113–251).  Returns the match object and
error handed back to the gRPC caller, together with the trace of store
operations attempted, in program order.  Metrics and log emission are out of
scope and not modelled. -/
def CreateMatch (env : MatchEnv) (profile : MatchObject) :
    MatchObject × Option String × List Effect :=
  -- line 125: requestKey := moID + "." + profile.Id
  let requestKey := env.moID ++ "." ++ profile.Id
  -- lines 141–173: backwards-compatibility pools/rosters extraction
  let profile := applyShim env profile
  -- line 187: write profile to state storage under the request key
  let writeE := Effect.write requestKey profile env.ttl
  match env.marshalErr with
  | some e =>
    -- lines 188–197: store-write failure is fatal; empty match object + error
    (emptyMatchObject, some e, [writeE])
  | none =>
    -- line 201: queue the request key to be sent to an MMF
    let enqE := Effect.enqueue env.queueName requestKey
    match env.updateErr with
    | some e =>
      -- lines 202–211: enqueue failure is fatal; empty match object + error
      (emptyMatchObject, some e, [writeE, enqE])
    | none =>
      -- line 222: open the watcher keyed on the request key
      let effects := [writeE, enqE, Effect.watch requestKey]
      match env.watchOutcome with
      | WatchOutcome.closed =>
        -- lines 224–234: channel closed without a value; `newMO` is the
        -- zero MatchObject, its Error is filled with a diagnostic
        let msg :=
          match env.ctxErr with
          | some e => "channel closed: " ++ e
          | none => "channel closed: backoff deadline exceeded"
        ({ emptyMatchObject with Error := msg },
         some ("Error retrieving matchmaking results from state storage: " ++ msg),
         effects)
      | WatchOutcome.delivered mo =>
        -- lines 236–240: validate the (input) profile's properties
        let newMO :=
          if env.jsonValid profile.Properties then mo
          else { mo with Error := "retreived properties json was malformed" }
        -- lines 242–250: non-empty Error is returned as the call's error
        if newMO.Error ≠ "" then (newMO, some newMO.Error, effects)
        else (newMO, none, effects)

/-- A Go map write `m[k] = v` on an association-list model of
`map[string]string`: replace the binding in place when the key is present,
append it otherwise.  Keys are therefore pairwise distinct and `length` is
the map's size (`len` in Go). -/
def mapInsert (m : List (String × String)) (k v : String) :
    List (String × String) :=
  match m with
  | [] => [(k, v)]
  | (k', v') :: rest =>
    if k' = k then (k, v) :: rest else (k', v') :: mapInsert rest k v

/-- A store operation attempted by the assignment handlers, in program
order.  `updateMultiFields` is `redisHelpers.UpdateMultiFields` (line 377),
`moveIgnorelist` is `ignorelist.Move` (line 380), `deleteMultiFields` is
`redisHelpers.DeleteMultiFields` (line 418); the `stat` constructors are the
OpenCensus assignment counters recorded at lines 390, 400, 428 and 434. -/
inductive AEffect where
  | updateMultiFields (idToValue : List (String × String)) (field : String)
  | moveIgnorelist (ids : List String) (fromList toList : String)
  | deleteMultiFields (ids : List String) (field : String)
  | statAssignments (n : Int)
  | statAssignmentFailures (n : Int)
  | statAssignmentDeletions (n : Int)
  | statAssignmentDeletionFailures (n : Int)
deriving DecidableEq, Repr

/-- Environment of a single assignment-handler call: the outcomes of the
store operations.  `moveErr` is the error `ignorelist.Move` would return;
the source discards that return value (line 380), so the field exists to
state that nothing depends on it. -/
structure AssignEnv where
  updateMultiErr : Option String
  moveErr : Option String
  deleteMultiErr : Option String
deriving DecidableEq, Repr

/-- `getPlayerIdsFromRoster` (apisrv.go lines 440–447): the slice of every
player's `Id` in the roster, unfiltered. -/
def getPlayerIdsFromRoster (r : Roster) : List String :=
  r.Players.map Player.Id

/-- One iteration of the inner player loop of `CreateAssignments`
(apisrv.go lines 351–361), carrying the assignment map and the roster's
players as mutated in place by the loop: a player with non-empty `Id` whose
`Assignment` is empty has it overwritten with the default before the map
write; players with empty `Id` are left untouched and unmapped. -/
def playerStep (default : String) (acc : List (String × String) × List Player)
    (p : Player) : List (String × String) × List Player :=
  if p.Id = "" then (acc.1, acc.2 ++ [p])
  else
    let p := if p.Assignment = "" then { p with Assignment := default } else p
    (mapInsert acc.1 p.Id p.Assignment, acc.2 ++ [p])

/-- One iteration of the outer roster loop of `CreateAssignments`
(apisrv.go lines 350–363), carrying the assignment map, the collected player
id list, and the rosters as mutated in place. -/
def rosterStep (default : String)
    (acc : List (String × String) × List String × List Roster) (r : Roster) :
    List (String × String) × List String × List Roster :=
  let inner := r.Players.foldl (playerStep default) (acc.1, [])
  let r' : Roster := { r with Players := inner.2 }
  (inner.1, acc.2.1 ++ getPlayerIdsFromRoster r', acc.2.2 ++ [r'])

/-- The accumulation pass of `CreateAssignments` (apisrv.go lines 348–363):
the player-to-assignment map, the flat list of collected player ids, and the
caller's rosters as left after the in-place mutation. -/
def assignPass (a : Assignments) :
    List (String × String) × List String × List Roster :=
  a.Rosters.foldl (rosterStep a.Assignment) ([], [], [])

/-- `CreateAssignments` (apisrv.go lines 345–402).  Returns the gRPC result
and error, the `Assignments` value as the call leaves it (the Go code
mutates the caller's rosters in place through the `*Player` pointers), and
the trace of store operations and assignment counters, in program order. -/
def CreateAssignments (env : AssignEnv) (a : Assignments) :
    Result × Option String × Assignments × List AEffect :=
  let pass := assignPass a
  let players := pass.1
  let playerIDs := pass.2.1
  let mutated : Assignments := { a with Rosters := pass.2.2 }
  -- line 377: batch-write the assignment field; line 380: move the ids,
  -- return value discarded
  let base := [AEffect.updateMultiFields players "assignment",
               AEffect.moveIgnorelist playerIDs "proposed" "deindexed"]
  match env.updateMultiErr with
  | some e =>
    -- lines 383–392
    (⟨false, e⟩, some e, mutated,
     base ++ [AEffect.statAssignmentFailures (players.length : Int)])
  | none =>
    -- lines 395–401
    (⟨true, ""⟩, none, mutated,
     base ++ [AEffect.statAssignments (players.length : Int)])

/-- `DeleteAssignments` (apisrv.go lines 406–436).  Returns the gRPC result
and error together with the trace of the store operation and deletion
counters. -/
def DeleteAssignments (env : AssignEnv) (r : Roster) :
    Result × Option String × List AEffect :=
  let assignments := getPlayerIdsFromRoster r
  let delE := AEffect.deleteMultiFields assignments "assignment"
  match env.deleteMultiErr with
  | some e =>
    (⟨false, e⟩, some e,
     [delE, AEffect.statAssignmentDeletionFailures (assignments.length : Int)])
  | none =>
    (⟨true, ""⟩, none,
     [delE, AEffect.statAssignmentDeletions (assignments.length : Int)])

/-- Lookup in the association-list model of a Go `map[string]string`. -/
def mapLookup (m : List (String × String)) (k : String) : Option String :=
  match m with
  | [] => none
  | (k', v) :: rest => if k' = k then some v else mapLookup rest k

/-- The in-place update the player loop of `CreateAssignments` performs on
one player (apisrv.go lines 352–357): a player with non-empty `Id` and empty
`Assignment` has the `Assignment` field overwritten with the default; every
other player is untouched. -/
def assignPlayer (default : String) (p : Player) : Player :=
  if p.Id ≠ "" ∧ p.Assignment = "" then { p with Assignment := default } else p

/-- The effective assignment of a player (apisrv.go lines 353–358): the
player's own `Assignment` when set, the default otherwise. -/
def effectiveAssignment (default : String) (p : Player) : String :=
  if p.Assignment = "" then default else p.Assignment

/-- The assignment map contributed by one list of players, as a fold of
single-key map writes, skipping players with empty `Id`. -/
def buildMap (default : String) (ps : List Player) (m : List (String × String)) :
    List (String × String) :=
  ps.foldl
    (fun m p =>
      if p.Id = "" then m else mapInsert m p.Id (effectiveAssignment default p)) m

/-- A roster as left by the in-place mutation of `CreateAssignments`. -/
def mutateRoster (default : String) (r : Roster) : Roster :=
  { r with Players := r.Players.map (assignPlayer default) }

/-- Every player of a list of rosters, in roster order. -/
def allRosterPlayers (rs : List Roster) : List Player :=
  (rs.map Roster.Players).flatten

/-- The flat list of all player ids collected across the rosters of an
`Assignments` value (no filtering of empty ids). -/
def collectedPlayerIds (a : Assignments) : List String :=
  (allRosterPlayers a.Rosters).map Player.Id

/-- Stated from the spec's words, for comparison with the map the code
builds: "for every player across every roster with non-empty `Id`: resolve
effective assignment = player's own `Assignment` if set, else the
Assignments' default", accumulated as a map from player id to effective
assignment. -/
def writeMapSpec (a : Assignments) : List (String × String) :=
  (allRosterPlayers a.Rosters).foldl
    (fun m p =>
      if p.Id = "" then m
      else mapInsert m p.Id
        (if p.Assignment = "" then a.Assignment else p.Assignment)) []

/- Concrete fixtures used by witnesses and counterexamples. -/

/-- A caller profile with non-empty id. -/
def profileOne : MatchObject :=
  { Id := "profile1", Properties := "[]", Pools := none, Rosters := none,
    Error := "" }

/-- A caller profile whose properties document is not valid JSON (under the
validity predicate of `envBase`). -/
def profileBadProps : MatchObject :=
  { profileOne with Properties := "not json" }

/-- Baseline environment for `CreateMatch`: fresh id, both store writes
succeed, the watcher channel closes without a value, the cancellation
context has not fired, and the JSON-validity predicate accepts exactly the
document `[]`. -/
def envBase : MatchEnv :=
  { moID := "9m4e2mr0ui3e8a215n4g", ttl := 43200, queueName := "profileq",
    poolsShim := none, rostersShim := none, marshalErr := none,
    updateErr := none, watchOutcome := WatchOutcome.closed, ctxErr := none,
    jsonValid := fun s => s = "[]" }

/-- Environment in which the profile write to state storage fails. -/
def envWriteFail : MatchEnv :=
  { envBase with marshalErr := some "redis: connection refused" }

/-- Environment in which the watcher channel closes after the caller's
cancellation context has fired. -/
def envCancelled : MatchEnv :=
  { envBase with ctxErr := some "context canceled" }

/-- A match object a worker could have written back: same request key,
valid properties, empty error. -/
def resultOk : MatchObject :=
  { Id := "9m4e2mr0ui3e8a215n4g.profile1", Properties := "[]", Pools := none,
    Rosters := none, Error := "" }

/-- A delivered match object carrying a worker-reported error. -/
def resultWorkerErr : MatchObject :=
  { resultOk with Error := "mmf failed" }

/-- Environment in which the watcher delivers `resultOk`. -/
def envDeliveredOk : MatchEnv :=
  { envBase with watchOutcome := WatchOutcome.delivered resultOk }

/-- Environment in which the watcher delivers `resultWorkerErr`. -/
def envDeliveredErr : MatchEnv :=
  { envBase with watchOutcome := WatchOutcome.delivered resultWorkerErr }

/-- Assignment-handler environment in which every store operation
succeeds. -/
def aEnvOk : AssignEnv :=
  { updateMultiErr := none, moveErr := none, deleteMultiErr := none }

/-- Assignment-handler environment in which every store operation fails. -/
def aEnvFail : AssignEnv :=
  { updateMultiErr := some "batch write failed",
    moveErr := some "move failed", deleteMultiErr := some "delete failed" }

/-- Player `p1` of the spec's testable property 4: no own assignment. -/
def examplePlayerOne : Player :=
  { Id := "p1", Assignment := "" }

/-- The roster of the spec's testable property 4: `p1` with no own
assignment, `p2` with own assignment `srvB`. -/
def exampleRoster : Roster :=
  { Name := "r1",
    Players := [examplePlayerOne, { Id := "p2", Assignment := "srvB" }] }

/-- The example input of the spec's testable property 4: `exampleRoster`
with default assignment `srvA`. -/
def exampleAssignments : Assignments :=
  { Rosters := [exampleRoster], Assignment := "srvA" }

/-- A roster containing a player with empty id next to a normal player. -/
def rosterWithEmptyId : Roster :=
  { Name := "r1",
    Players := [{ Id := "", Assignment := "x" },
                { Id := "p1", Assignment := "srvB" }] }

/-- An `Assignments` value over `rosterWithEmptyId`. -/
def assignmentsWithEmptyId : Assignments :=
  { Rosters := [rosterWithEmptyId], Assignment := "srvA" }

/-! ### Helper lemmas -/

/-- The compatibility shim never changes the `Id` field. -/
theorem applyShim_Id (env : MatchEnv) (p : MatchObject) :
    (applyShim env p).Id = p.Id := by
  unfold applyShim
  rcases p.Pools with _ | ps <;> rcases env.poolsShim with _ | s <;>
    simp <;> split <;> rcases env.rostersShim with _ | t <;> simp

/-- The compatibility shim never changes the `Properties` field: the
validation at apisrv.go line 238 therefore reads the caller's original
properties document. -/
theorem applyShim_Properties (env : MatchEnv) (p : MatchObject) :
    (applyShim env p).Properties = p.Properties := by
  unfold applyShim
  rcases p.Pools with _ | ps <;> rcases env.poolsShim with _ | s <;>
    simp <;> split <;> rcases env.rostersShim with _ | t <;> simp

/-- A string with a non-empty prefix is non-empty. -/
theorem string_append_ne_empty (s t : String) (h : s.data ≠ []) :
    s ++ t ≠ "" := by
  intro hc
  have hdata : s.data ++ t.data = ([] : List Char) := congrArg String.data hc
  exact h (List.append_eq_nil.mp hdata).1

/-- Looking up the key just written returns the written value. -/
theorem mapLookup_mapInsert_self (m : List (String × String)) (k v : String) :
    mapLookup (mapInsert m k v) k = some v := by
  induction m with
  | nil => simp [mapInsert, mapLookup]
  | cons kv rest ih =>
    obtain ⟨k', v'⟩ := kv
    by_cases h : k' = k <;> simp [mapInsert, mapLookup, h, ih]

/-- A map write to one key does not change the lookup of another key. -/
theorem mapLookup_mapInsert_ne (m : List (String × String)) (k v j : String)
    (h : j ≠ k) : mapLookup (mapInsert m k v) j = mapLookup m j := by
  induction m with
  | nil => simp [mapInsert, mapLookup, h, Ne.symm h]
  | cons kv rest ih =>
    obtain ⟨k', v'⟩ := kv
    by_cases hk : k' = k
    · subst hk
      simp [mapInsert, mapLookup, h, Ne.symm h]
    · by_cases hj : k' = j <;> simp [mapInsert, mapLookup, h, hk, hj, ih]

/-- The in-place player update preserves the player's id. -/
theorem assignPlayer_Id (d : String) (p : Player) :
    (assignPlayer d p).Id = p.Id := by
  unfold assignPlayer
  split <;> rfl

/-- The inner player loop of `CreateAssignments`, decomposed: it produces
the assignment map of the players and the in-place-mutated player list. -/
theorem foldl_playerStep (d : String) (ps : List Player)
    (m : List (String × String)) (l : List Player) :
    ps.foldl (playerStep d) (m, l) =
      (buildMap d ps m, l ++ ps.map (assignPlayer d)) := by
  induction ps generalizing m l with
  | nil => simp [buildMap]
  | cons p rest ih =>
    simp only [List.foldl_cons, List.map_cons]
    by_cases hid : p.Id = ""
    · rw [show playerStep d (m, l) p = (m, l ++ [p]) from by
        simp [playerStep, hid]]
      rw [ih]
      simp [buildMap, assignPlayer, hid]
    · by_cases hass : p.Assignment = ""
      · rw [show playerStep d (m, l) p =
            (mapInsert m p.Id d, l ++ [{ p with Assignment := d }]) from by
          simp [playerStep, hid, hass]]
        rw [ih]
        simp [buildMap, assignPlayer, effectiveAssignment, hid, hass]
      · rw [show playerStep d (m, l) p =
            (mapInsert m p.Id p.Assignment, l ++ [p]) from by
          simp [playerStep, hid, hass]]
        rw [ih]
        simp [buildMap, assignPlayer, effectiveAssignment, hid, hass]

/-- `allRosterPlayers` unfolds on a cons. -/
theorem allRosterPlayers_cons (r : Roster) (rs : List Roster) :
    allRosterPlayers (r :: rs) = r.Players ++ allRosterPlayers rs := by
  simp [allRosterPlayers]

/-- The outer roster loop of `CreateAssignments`, decomposed: it produces
the nested-fold assignment map, the flat unfiltered id list, and the
in-place-mutated rosters. -/
theorem foldl_rosterStep (d : String) (rs : List Roster)
    (m : List (String × String)) (ids : List String) (acc : List Roster) :
    rs.foldl (rosterStep d) (m, ids, acc) =
      (rs.foldl (fun m r => buildMap d r.Players m) m,
       ids ++ (allRosterPlayers rs).map Player.Id,
       acc ++ rs.map (mutateRoster d)) := by
  induction rs generalizing m ids acc with
  | nil => simp [allRosterPlayers]
  | cons r rest ih =>
    simp only [List.foldl_cons, rosterStep, foldl_playerStep, List.nil_append]
    rw [ih]
    simp [mutateRoster, getPlayerIdsFromRoster, allRosterPlayers_cons,
      assignPlayer_Id, Function.comp]

/-- The accumulation pass of `CreateAssignments`, characterized: the map it
builds is exactly the spec-described write map, the id list is the flat
unfiltered id list, and the rosters are mutated in place player by
player. -/
theorem assignPass_eq (a : Assignments) :
    assignPass a =
      (writeMapSpec a, collectedPlayerIds a,
       a.Rosters.map (mutateRoster a.Assignment)) := by
  unfold assignPass writeMapSpec collectedPlayerIds
  rw [foldl_rosterStep]
  simp only [List.nil_append, buildMap, effectiveAssignment]
  rw [allRosterPlayers, List.foldl_flatten, List.foldl_map]

/-- `writeMapSpec` is the flat fold of single-key writes over all
players. -/
theorem writeMapSpec_eq_buildMap (a : Assignments) :
    writeMapSpec a = buildMap a.Assignment (allRosterPlayers a.Rosters) [] := rfl

/-- The flat fold never writes the empty-string key. -/
theorem mapLookup_buildMap_empty (d : String) (ps : List Player)
    (m : List (String × String)) :
    mapLookup (buildMap d ps m) "" = mapLookup m "" := by
  induction ps generalizing m with
  | nil => simp [buildMap]
  | cons p rest ih =>
    by_cases hid : p.Id = ""
    · rw [show buildMap d (p :: rest) m = buildMap d rest m from by
        simp [buildMap, hid]]
      exact ih m
    · rw [show buildMap d (p :: rest) m =
          buildMap d rest (mapInsert m p.Id (effectiveAssignment d p)) from by
        simp [buildMap, hid]]
      rw [ih, mapLookup_mapInsert_ne _ _ _ _ (Ne.symm hid)]

/-- The spec-described write map has no entry for the empty player id. -/
theorem mapLookup_writeMapSpec_empty (a : Assignments) :
    mapLookup (writeMapSpec a) "" = none := by
  rw [writeMapSpec_eq_buildMap, mapLookup_buildMap_empty]
  rfl

/-- The `Assignments` value as `CreateAssignments` leaves it: the default
assignment is untouched and every roster is mutated player by player,
independently of the batch write's outcome. -/
theorem createAssignments_mutated (env : AssignEnv) (a : Assignments) :
    (CreateAssignments env a).2.2.1 =
      { a with Rosters := a.Rosters.map (mutateRoster a.Assignment) } := by
  rcases h : env.updateMultiErr with _ | e <;>
    simp [CreateAssignments, assignPass_eq, h]

/-! ### Claim theorems -/

/-- C3: in `CreateAssignments`, the move of every collected player id from
the "proposed" list to the "deindexed" list is attempted on every call,
whatever the batch assignment write's outcome, and the outcome of the move
operation itself never changes the returned `Result` or error. -/
theorem c3_move_unconditional_unsurfaced (env : AssignEnv)
    (m' : Option String) (a : Assignments) :
    AEffect.moveIgnorelist (collectedPlayerIds a) "proposed" "deindexed" ∈
        (CreateAssignments env a).2.2.2 ∧
      (CreateAssignments { env with moveErr := m' } a).1 =
        (CreateAssignments env a).1 ∧
      (CreateAssignments { env with moveErr := m' } a).2.1 =
        (CreateAssignments env a).2.1 := by
  rcases h : env.updateMultiErr with _ | e <;>
    simp [CreateAssignments, assignPass_eq, h]

/-- C4: `CreateAssignments` batch-writes exactly the spec-described map
(each player with non-empty id across all rosters mapped to its own
assignment when set, else the default), and on success the
assignment-count metric equals the size of that map. -/
theorem c4_write_map_and_metric (env : AssignEnv) (a : Assignments) :
    AEffect.updateMultiFields (writeMapSpec a) "assignment" ∈
        (CreateAssignments env a).2.2.2 ∧
      (env.updateMultiErr = none →
        AEffect.statAssignments ((writeMapSpec a).length : Int) ∈
          (CreateAssignments env a).2.2.2) := by
  rcases h : env.updateMultiErr with _ | e <;>
    simp [CreateAssignments, assignPass_eq, h]

/-- C4 witness: on the spec's example (players `p1` with no own assignment
and `p2` with `srvB`, default `srvA`) the write map is exactly
`p1 ↦ srvA, p2 ↦ srvB` and the recorded assignment count is 2. -/
theorem c4_witness :
    aEnvOk.updateMultiErr = none ∧
      writeMapSpec exampleAssignments = [("p1", "srvA"), ("p2", "srvB")] ∧
      AEffect.updateMultiFields [("p1", "srvA"), ("p2", "srvB")] "assignment" ∈
        (CreateAssignments aEnvOk exampleAssignments).2.2.2 ∧
      AEffect.statAssignments 2 ∈
        (CreateAssignments aEnvOk exampleAssignments).2.2.2 := by
  have h := c4_write_map_and_metric aEnvOk exampleAssignments
  have hmap : writeMapSpec exampleAssignments = [("p1", "srvA"), ("p2", "srvB")] := by
    decide
  refine ⟨rfl, hmap, ?_, ?_⟩
  · rw [hmap] at h
    exact h.1
  · have h2 := h.2 rfl
    rw [show ((writeMapSpec exampleAssignments).length : Int) = 2 from by decide] at h2
    exact h2

/-- C9: the id list `CreateAssignments` hands to the proposed-to-deindexed
move contains every player's id, empty ids included, while the batch-write
map has no entry under the empty id; `DeleteAssignments` likewise clears
and counts the unfiltered id list of its roster. -/
theorem c9_empty_ids_in_id_lists (env : AssignEnv) (a : Assignments)
    (r : Roster) (p : Player) (r0 : Roster)
    (hr : r ∈ a.Rosters) (hp : p ∈ r.Players) :
    AEffect.moveIgnorelist (collectedPlayerIds a) "proposed" "deindexed" ∈
        (CreateAssignments env a).2.2.2 ∧
      p.Id ∈ collectedPlayerIds a ∧
      mapLookup ((assignPass a).1) "" = none ∧
      AEffect.deleteMultiFields (r0.Players.map Player.Id) "assignment" ∈
        (DeleteAssignments env r0).2.2 ∧
      (env.deleteMultiErr = none →
        AEffect.statAssignmentDeletions ((r0.Players.length : Int)) ∈
          (DeleteAssignments env r0).2.2) := by
  refine ⟨?_, ?_, ?_, ?_, ?_⟩
  · rcases h : env.updateMultiErr with _ | e <;>
      simp [CreateAssignments, assignPass_eq, h]
  · unfold collectedPlayerIds allRosterPlayers
    exact List.mem_map_of_mem _
      (List.mem_flatten.mpr ⟨r.Players, List.mem_map_of_mem _ hr, hp⟩)
  · rw [assignPass_eq]
    exact mapLookup_writeMapSpec_empty a
  · rcases h : env.deleteMultiErr with _ | e <;>
      simp [DeleteAssignments, getPlayerIdsFromRoster, h]
  · intro h
    simp [DeleteAssignments, getPlayerIdsFromRoster, h]

/-- C9 witness: a roster with a player whose id is empty — the empty id is
in the moved list and in the deletion count, but absent from the write
map. -/
theorem c9_witness :
    rosterWithEmptyId ∈ assignmentsWithEmptyId.Rosters ∧
      (⟨"", "x"⟩ : Player) ∈ rosterWithEmptyId.Players ∧
      ("" : String) ∈ collectedPlayerIds assignmentsWithEmptyId ∧
      mapLookup ((assignPass assignmentsWithEmptyId).1) "" = none ∧
      AEffect.statAssignmentDeletions 2 ∈
        (DeleteAssignments aEnvOk rosterWithEmptyId).2.2 := by
  have h := c9_empty_ids_in_id_lists aEnvOk assignmentsWithEmptyId
    rosterWithEmptyId ⟨"", "x"⟩ rosterWithEmptyId (by decide) (by decide)
  refine ⟨by decide, by decide, h.2.1, h.2.2.1, ?_⟩
  have h2 := h.2.2.2.2 rfl
  simpa [rosterWithEmptyId] using h2

/-- C10: `CreateAssignments` mutates its input in place — every player with
non-empty id and empty assignment has its `Assignment` field overwritten
with the default, and everything else (the default assignment, the roster
count, each roster's name and player count, every other player) is left
unchanged. -/
theorem c10_mutates_input_in_place (env : AssignEnv) (a : Assignments)
    (i j : Nat) (r : Roster) (p : Player)
    (hi : a.Rosters[i]? = some r) (hj : r.Players[j]? = some p) :
    ((CreateAssignments env a).2.2.1).Assignment = a.Assignment ∧
      ((CreateAssignments env a).2.2.1).Rosters.length = a.Rosters.length ∧
      ∃ r', ((CreateAssignments env a).2.2.1).Rosters[i]? = some r' ∧
        r'.Name = r.Name ∧ r'.Players.length = r.Players.length ∧
        r'.Players[j]? =
          some (if p.Id ≠ "" ∧ p.Assignment = ""
                then { p with Assignment := a.Assignment } else p) := by
  rw [createAssignments_mutated]
  refine ⟨rfl, by simp, mutateRoster a.Assignment r, ?_, rfl, by simp [mutateRoster], ?_⟩
  · simp [List.getElem?_map, hi]
  · simp [mutateRoster, List.getElem?_map, hj, assignPlayer]

/-- C10 witness: on the spec's example, `p1` (empty assignment) is
overwritten with the default `srvA` in the caller's structure, while the
default assignment field is unchanged. -/
theorem c10_witness :
    exampleAssignments.Rosters[0]? = some exampleRoster ∧
      exampleRoster.Players[0]? = some examplePlayerOne ∧
      ((CreateAssignments aEnvOk exampleAssignments).2.2.1).Assignment =
        exampleAssignments.Assignment ∧
      ∃ r', ((CreateAssignments aEnvOk exampleAssignments).2.2.1).Rosters[0]? =
          some r' ∧
        r'.Players[0]? = some { Id := "p1", Assignment := "srvA" } := by
  have h := c10_mutates_input_in_place aEnvOk exampleAssignments 0 0
    exampleRoster examplePlayerOne (by decide) (by decide)
  obtain ⟨ha, -, r', hr', -, -, hp0⟩ := h
  refine ⟨by decide, by decide, ha, r', hr', ?_⟩
  rw [hp0]
  decide

/-- C1 counterexample: with a non-empty profile id and a failing store
write, `CreateMatch` returns a non-nil error paired with a result whose
`Error` field is the empty string, contradicting the claim as stated. -/
theorem c1_counterexample :
    profileOne.Id ≠ "" ∧
      (CreateMatch envWriteFail profileOne).2.1 ≠ none ∧
      (CreateMatch envWriteFail profileOne).1.Error = "" := by
  refine ⟨by decide, by decide, rfl⟩

/-- C1 (amended): on the watch paths (both store writes succeeded),
`CreateMatch` returns either no error with an empty result `Error`, or a
non-nil error with a non-empty result `Error`; but on the
store-write-failure and enqueue-failure paths it returns a non-nil error
paired with an empty `MatchObject` whose `Error` field is empty. -/
theorem c1_error_result_pairing (env : MatchEnv) (profile : MatchObject) :
    (env.marshalErr = none → env.updateErr = none →
      (((CreateMatch env profile).2.1 = none ∧
          (CreateMatch env profile).1.Error = "") ∨
        ((CreateMatch env profile).2.1 ≠ none ∧
          (CreateMatch env profile).1.Error ≠ ""))) ∧
      ((env.marshalErr ≠ none ∨ env.updateErr ≠ none) →
        ((CreateMatch env profile).2.1 ≠ none ∧
          (CreateMatch env profile).1.Error = "")) := by
  constructor
  · intro h1 h2
    rcases hw : env.watchOutcome with mo | _
    · by_cases hv : env.jsonValid (applyShim env profile).Properties = true
      · by_cases he : mo.Error = ""
        · left
          constructor <;> simp [CreateMatch, h1, h2, hw, hv, he]
        · right
          constructor <;> simp [CreateMatch, h1, h2, hw, hv, he]
      · right
        constructor <;> simp [CreateMatch, h1, h2, hw, hv]
    · right
      rcases hc : env.ctxErr with _ | e
      · constructor <;> simp [CreateMatch, h1, h2, hw, hc]
      · refine ⟨by simp [CreateMatch, h1, h2, hw, hc], ?_⟩
        have hne := string_append_ne_empty "channel closed: " e (by decide)
        simpa [CreateMatch, h1, h2, hw, hc] using hne
  · intro h
    rcases hm : env.marshalErr with _ | e
    · rcases hu : env.updateErr with _ | e2
      · rcases h with h | h
        · exact absurd hm h
        · exact absurd hu h
      · constructor <;> simp [CreateMatch, hm, hu, emptyMatchObject]
    · constructor <;> simp [CreateMatch, hm, emptyMatchObject]

/-- C1 witness: on the watch path the pairing holds (here at a closed
channel), and at a failing store write the error comes with an empty result
`Error`. -/
theorem c1_witness :
    envBase.marshalErr = none ∧ envBase.updateErr = none ∧
      (((CreateMatch envBase profileOne).2.1 = none ∧
          (CreateMatch envBase profileOne).1.Error = "") ∨
        ((CreateMatch envBase profileOne).2.1 ≠ none ∧
          (CreateMatch envBase profileOne).1.Error ≠ "")) ∧
      (envWriteFail.marshalErr ≠ none ∨ envWriteFail.updateErr ≠ none) ∧
      ((CreateMatch envWriteFail profileOne).2.1 ≠ none ∧
        (CreateMatch envWriteFail profileOne).1.Error = "") := by
  refine ⟨rfl, rfl, (c1_error_result_pairing envBase profileOne).1 rfl rfl,
    Or.inl (by decide),
    (c1_error_result_pairing envWriteFail profileOne).2 (Or.inl (by decide))⟩

/-- C2: on a delivered value, the JSON-validity check targets the original
input profile's properties: whenever those are invalid, the result's
`Error` is the malformed-properties message and a non-nil error is
returned, whatever the resolved record contains; and whenever they are
valid, the resolved record is passed through untouched. -/
theorem c2_validation_targets_input (env : MatchEnv) (profile mo : MatchObject)
    (h1 : env.marshalErr = none) (h2 : env.updateErr = none)
    (h3 : env.watchOutcome = WatchOutcome.delivered mo)
    (h4 : env.jsonValid profile.Properties = false) :
    (CreateMatch env profile).1.Error =
        "retreived properties json was malformed" ∧
      (CreateMatch env profile).2.1 =
        some "retreived properties json was malformed" := by
  have hv : env.jsonValid (applyShim env profile).Properties = false := by
    rw [applyShim_Properties]
    exact h4
  constructor <;> simp [CreateMatch, h1, h2, h3, hv]

/-- C2 witness: the input profile's properties are invalid while the
delivered record's are valid and error-free, and the call still fails with
the malformed-properties message. -/
theorem c2_witness :
    envDeliveredOk.marshalErr = none ∧ envDeliveredOk.updateErr = none ∧
      envDeliveredOk.watchOutcome = WatchOutcome.delivered resultOk ∧
      envDeliveredOk.jsonValid profileBadProps.Properties = false ∧
      envDeliveredOk.jsonValid resultOk.Properties = true ∧
      resultOk.Error = "" ∧
      (CreateMatch envDeliveredOk profileBadProps).1.Error =
        "retreived properties json was malformed" ∧
      (CreateMatch envDeliveredOk profileBadProps).2.1 =
        some "retreived properties json was malformed" := by
  have h := c2_validation_targets_input envDeliveredOk profileBadProps resultOk
    rfl rfl rfl (by decide)
  exact ⟨rfl, rfl, rfl, by decide, by decide, rfl, h.1, h.2⟩

/-- C5: when the watch sequence closes without a value, the result's
`Error` carries the cancellation context's error text when the caller's
cancellation fired and the backoff-deadline-exceeded diagnostic otherwise,
and in both cases the call returns a non-nil error built from that
diagnostic. -/
theorem c5_closed_channel_diagnostics (env : MatchEnv) (profile : MatchObject)
    (h1 : env.marshalErr = none) (h2 : env.updateErr = none)
    (h3 : env.watchOutcome = WatchOutcome.closed) :
    (CreateMatch env profile).2.1 ≠ none ∧
      (∀ e, env.ctxErr = some e →
        (CreateMatch env profile).1.Error = "channel closed: " ++ e ∧
          (CreateMatch env profile).2.1 =
            some ("Error retrieving matchmaking results from state storage: " ++
              ("channel closed: " ++ e))) ∧
      (env.ctxErr = none →
        (CreateMatch env profile).1.Error =
            "channel closed: backoff deadline exceeded" ∧
          (CreateMatch env profile).2.1 =
            some ("Error retrieving matchmaking results from state storage: " ++
              "channel closed: backoff deadline exceeded")) := by
  refine ⟨?_, ?_, ?_⟩
  · rcases hc : env.ctxErr with _ | e <;> simp [CreateMatch, h1, h2, h3, hc]
  · intro e hc
    constructor <;> simp [CreateMatch, h1, h2, h3, hc]
  · intro hc
    constructor <;> simp [CreateMatch, h1, h2, h3, hc]

/-- C5 witness: with the cancellation context fired the diagnostic carries
its error text; without it, the backoff-deadline-exceeded diagnostic. -/
theorem c5_witness :
    envCancelled.marshalErr = none ∧ envCancelled.updateErr = none ∧
      envCancelled.watchOutcome = WatchOutcome.closed ∧
      envCancelled.ctxErr = some "context canceled" ∧
      (CreateMatch envCancelled profileOne).1.Error =
        "channel closed: context canceled" ∧
      envBase.ctxErr = none ∧
      (CreateMatch envBase profileOne).1.Error =
        "channel closed: backoff deadline exceeded" := by
  have ha := c5_closed_channel_diagnostics envCancelled profileOne rfl rfl rfl
  have hb := c5_closed_channel_diagnostics envBase profileOne rfl rfl rfl
  refine ⟨rfl, rfl, rfl, rfl, ?_, rfl, (hb.2.2 rfl).1⟩
  have h := (ha.2.1 "context canceled" rfl).1
  simpa using h

/-- C6: on a delivered record with valid input properties, a non-empty
record `Error` is returned as the call's error with exactly that message,
and an empty record `Error` yields the record with no error. -/
theorem c6_worker_error_propagation (env : MatchEnv) (profile mo : MatchObject)
    (h1 : env.marshalErr = none) (h2 : env.updateErr = none)
    (h3 : env.watchOutcome = WatchOutcome.delivered mo)
    (h4 : env.jsonValid profile.Properties = true) :
    (mo.Error ≠ "" →
      (CreateMatch env profile).1 = mo ∧
        (CreateMatch env profile).2.1 = some mo.Error) ∧
      (mo.Error = "" →
        (CreateMatch env profile).1 = mo ∧
          (CreateMatch env profile).2.1 = none) := by
  have hv : env.jsonValid (applyShim env profile).Properties = true := by
    rw [applyShim_Properties]
    exact h4
  constructor
  · intro he
    constructor <;> simp [CreateMatch, h1, h2, h3, hv, he]
  · intro he
    constructor <;> simp [CreateMatch, h1, h2, h3, hv, he]

/-- C6 witness: a worker-reported error `mmf failed` is surfaced verbatim,
and an error-free delivered record comes back with no error. -/
theorem c6_witness :
    resultWorkerErr.Error = "mmf failed" ∧
      envDeliveredErr.jsonValid profileOne.Properties = true ∧
      (CreateMatch envDeliveredErr profileOne).1 = resultWorkerErr ∧
      (CreateMatch envDeliveredErr profileOne).2.1 = some "mmf failed" ∧
      (CreateMatch envDeliveredOk profileOne).1 = resultOk ∧
      (CreateMatch envDeliveredOk profileOne).2.1 = none := by
  have ha := c6_worker_error_propagation envDeliveredErr profileOne
    resultWorkerErr rfl rfl rfl (by decide)
  have hb := c6_worker_error_propagation envDeliveredOk profileOne
    resultOk rfl rfl rfl (by decide)
  obtain ⟨hae, har⟩ := ha.1 (by decide)
  obtain ⟨hbe, hbr⟩ := hb.2 rfl
  refine ⟨rfl, by decide, hae, ?_, hbe, hbr⟩
  simpa [resultWorkerErr, resultOk] using har

/-- C7: within one `CreateMatch` call, the attempted store operations are
exactly: the profile write under the request key, then the enqueue of the
request key, then the watch on the request key — truncated after the first
failing step, so no enqueue after a failed write and no watch after a
failed enqueue. -/
theorem c7_effect_order (env : MatchEnv) (profile : MatchObject) :
    (CreateMatch env profile).2.2 =
      if env.marshalErr.isSome then
        [Effect.write (env.moID ++ "." ++ profile.Id) (applyShim env profile)
          env.ttl]
      else if env.updateErr.isSome then
        [Effect.write (env.moID ++ "." ++ profile.Id) (applyShim env profile)
          env.ttl,
         Effect.enqueue env.queueName (env.moID ++ "." ++ profile.Id)]
      else
        [Effect.write (env.moID ++ "." ++ profile.Id) (applyShim env profile)
          env.ttl,
         Effect.enqueue env.queueName (env.moID ++ "." ++ profile.Id),
         Effect.watch (env.moID ++ "." ++ profile.Id)] := by
  rcases hm : env.marshalErr with _ | e
  · rcases hu : env.updateErr with _ | e2
    · rcases hw : env.watchOutcome with mo | _
      · by_cases hv : env.jsonValid (applyShim env profile).Properties = true <;>
          by_cases he : mo.Error = "" <;> simp [CreateMatch, hm, hu, hw, hv, he]
      · rcases hc : env.ctxErr with _ | e3 <;> simp [CreateMatch, hm, hu, hw, hc]
    · simp [CreateMatch, hm, hu]
  · simp [CreateMatch, hm]

/-- C8: when both store writes succeed, the key written, the item enqueued
and the key watched are all exactly the fresh unique id, a literal dot, and
the caller's profile id. -/
theorem c8_request_key (env : MatchEnv) (profile : MatchObject)
    (h1 : env.marshalErr = none) (h2 : env.updateErr = none) :
    (CreateMatch env profile).2.2 =
      [Effect.write (env.moID ++ "." ++ profile.Id) (applyShim env profile)
        env.ttl,
       Effect.enqueue env.queueName (env.moID ++ "." ++ profile.Id),
       Effect.watch (env.moID ++ "." ++ profile.Id)] := by
  rcases hw : env.watchOutcome with mo | _
  · by_cases hv : env.jsonValid (applyShim env profile).Properties = true <;>
      by_cases he : mo.Error = "" <;> simp [CreateMatch, h1, h2, hw, hv, he]
  · rcases hc : env.ctxErr with _ | e <;> simp [CreateMatch, h1, h2, hw, hc]

/-- C8 witness: with unique id `9m4e2mr0ui3e8a215n4g` and profile id
`profile1`, the written, enqueued and watched key is
`9m4e2mr0ui3e8a215n4g.profile1`. -/
theorem c8_witness :
    envBase.marshalErr = none ∧ envBase.updateErr = none ∧
      envBase.moID ++ "." ++ profileOne.Id = "9m4e2mr0ui3e8a215n4g.profile1" ∧
      (CreateMatch envBase profileOne).2.2 =
        [Effect.write "9m4e2mr0ui3e8a215n4g.profile1"
          (applyShim envBase profileOne) envBase.ttl,
         Effect.enqueue "profileq" "9m4e2mr0ui3e8a215n4g.profile1",
         Effect.watch "9m4e2mr0ui3e8a215n4g.profile1"] := by
  have h := c8_request_key envBase profileOne rfl rfl
  refine ⟨rfl, rfl, by decide, ?_⟩
  rw [h]
  decide

end OpenMatch
